import Mathlib

/-!
Shallow embedding of the go-puzzle-proxy server: the request fingerprint
(SHA-256 over the canonical JSON re-serialization of the decoded
`PuzzleRequest`), the cache-or-generate control flow of
`generatePuzzleHandler` (src/main.go), the cache access functions
`GetCachedPuzzle` / `SaveCachedPuzzle` (src/database.go), and the prompt /
schema construction of `GeneratePuzzle` (src/gemini_service.go).

Machine words are `Nat` reduced modulo 2^32 where the Go code relies on
32-bit overflow (inside SHA-256); byte sequences are `List Nat` with each
element below 256. External effects (the PostgreSQL store, the Gemini HTTP
call, JSON body decoding by `encoding/json`) are injected as explicit
parameters so the handler itself is a pure function of its inputs.
-/

namespace PuzzleProxy

/-! ## Bytes and UTF-8 (Go strings are UTF-8 byte sequences) -/

/-- UTF-8 encoding of a single scalar value, as Go lays out string bytes. -/
def utf8Bytes (c : Char) : List Nat :=
  let n := c.toNat
  if n < 128 then [n]
  else if n < 2048 then [192 + n / 64, 128 + n % 64]
  else if n < 65536 then [224 + n / 4096, 128 + (n / 64) % 64, 128 + n % 64]
  else [240 + n / 262144, 128 + (n / 4096) % 64, 128 + (n / 64) % 64, 128 + n % 64]

/-- The bytes of a Go string (UTF-8). -/
def strBytes (s : String) : List Nat :=
  s.toList.flatMap utf8Bytes

/-! ## SHA-256 (crypto/sha256), on `Nat` words modulo 2^32 -/

/-- Right rotation of a 32-bit word. -/
def rotr32 (n x : Nat) : Nat :=
  ((x >>> n) ||| (x <<< (32 - n))) % 4294967296

/-- 32-bit complement (the word is below 2^32). -/
def not32 (x : Nat) : Nat := x ^^^ 4294967295

def ch32 (e f g : Nat) : Nat := (e &&& f) ^^^ (not32 e &&& g)

def maj32 (a b c : Nat) : Nat := (a &&& b) ^^^ (a &&& c) ^^^ (b &&& c)

def bigSigma0 (x : Nat) : Nat := rotr32 2 x ^^^ rotr32 13 x ^^^ rotr32 22 x

def bigSigma1 (x : Nat) : Nat := rotr32 6 x ^^^ rotr32 11 x ^^^ rotr32 25 x

def smallSigma0 (x : Nat) : Nat := rotr32 7 x ^^^ rotr32 18 x ^^^ (x >>> 3)

def smallSigma1 (x : Nat) : Nat := rotr32 17 x ^^^ rotr32 19 x ^^^ (x >>> 10)

/-- The 64 SHA-256 round constants (the fractional parts of the cube roots
of the first 64 primes, as 32-bit words, here in decimal). -/
def K : List Nat :=
  [1116352408, 1899447441, 3049323471, 3921009573, 961987163, 1508970993,
   2453635748, 2870763221, 3624381080, 310598401, 607225278, 1426881987,
   1925078388, 2162078206, 2614888103, 3248222580, 3835390401, 4022224774,
   264347078, 604807628, 770255983, 1249150122, 1555081692, 1996064986,
   2554220882, 2821834349, 2952996808, 3210313671, 3336571891, 3584528711,
   113926993, 338241895, 666307205, 773529912, 1294757372, 1396182291,
   1695183700, 1986661051, 2177026350, 2456956037, 2730485921, 2820302411,
   3259730800, 3345764771, 3516065817, 3600352804, 4094571909, 275423344,
   430227734, 506948616, 659060556, 883997877, 958139571, 1322822218,
   1537002063, 1747873779, 1955562222, 2024104815, 2227730452, 2361852424,
   2428436474, 2756734187, 3204031479, 3329325298]

/-- The eight 32-bit words of a SHA-256 state. -/
structure Hash8 where
  a : Nat
  b : Nat
  c : Nat
  d : Nat
  e : Nat
  f : Nat
  g : Nat
  h : Nat
deriving DecidableEq, Repr

/-- The SHA-256 initial state (the fractional parts of the square roots of
the first 8 primes, as 32-bit words, here in decimal). -/
def H0 : Hash8 :=
  ⟨1779033703, 3144134277, 1013904242, 2773480762, 1359893119, 2600822924, 528734635, 1541459225⟩

/-- One round of the SHA-256 compression function. -/
def compressRound (st : Hash8) (kw : Nat × Nat) : Hash8 :=
  let t1 := (st.h + bigSigma1 st.e + ch32 st.e st.f st.g + kw.1 + kw.2) % 4294967296
  let t2 := (bigSigma0 st.a + maj32 st.a st.b st.c) % 4294967296
  ⟨(t1 + t2) % 4294967296, st.a, st.b, st.c, (st.d + t1) % 4294967296, st.e, st.f, st.g⟩

/-- Extend a 16-word block to the 64-word message schedule (the counter is
the number of words still to append). -/
def schedule : Nat → List Nat → List Nat
  | 0, w => w
  | n + 1, w =>
    let t := w.length
    let x := (w.getD (t - 16) 0 + smallSigma0 (w.getD (t - 15) 0)
              + w.getD (t - 7) 0 + smallSigma1 (w.getD (t - 2) 0)) % 4294967296
    schedule n (w ++ [x])

/-- Compress one 512-bit block (given as sixteen 32-bit words) into the state. -/
def compressBlock (h0 : Hash8) (ws : List Nat) : Hash8 :=
  let w := schedule 48 ws
  let s := (K.zip w).foldl compressRound h0
  ⟨(h0.a + s.a) % 4294967296, (h0.b + s.b) % 4294967296, (h0.c + s.c) % 4294967296,
   (h0.d + s.d) % 4294967296, (h0.e + s.e) % 4294967296, (h0.f + s.f) % 4294967296,
   (h0.g + s.g) % 4294967296, (h0.h + s.h) % 4294967296⟩

/-- Fold the compression function over the words of the padded message,
sixteen words (one block) at a time. -/
def processWords (h : Hash8) : List Nat → Hash8
  | w0 :: w1 :: w2 :: w3 :: w4 :: w5 :: w6 :: w7 ::
    w8 :: w9 :: w10 :: w11 :: w12 :: w13 :: w14 :: w15 :: rest =>
      processWords (compressBlock h [w0, w1, w2, w3, w4, w5, w6, w7,
                                     w8, w9, w10, w11, w12, w13, w14, w15]) rest
  | _ => h

/-- Big-endian bytes to 32-bit words, four bytes per word. -/
def bytesToWords : List Nat → List Nat
  | b0 :: b1 :: b2 :: b3 :: rest =>
      (b0 * 16777216 + b1 * 65536 + b2 * 256 + b3) :: bytesToWords rest
  | _ => []

/-- The 64-bit big-endian length field of the SHA-256 padding. -/
def be64 (n : Nat) : List Nat :=
  [(n >>> 56) % 256, (n >>> 48) % 256, (n >>> 40) % 256, (n >>> 32) % 256,
   (n >>> 24) % 256, (n >>> 16) % 256, (n >>> 8) % 256, n % 256]

/-- SHA-256 padding: a 0x80 byte, zeros to 56 mod 64, then the bit length. -/
def padMessage (msg : List Nat) : List Nat :=
  let L := msg.length
  let z := (120 - ((L + 1) % 64)) % 64
  msg ++ 128 :: (List.replicate z 0 ++ be64 (8 * L))

/-- The four big-endian bytes of a 32-bit word. -/
def wordBytes (w : Nat) : List Nat :=
  [(w >>> 24) % 256, (w >>> 16) % 256, (w >>> 8) % 256, w % 256]

/-- The 32 digest bytes of a final state. -/
def hashBytes (s : Hash8) : List Nat :=
  wordBytes s.a ++ wordBytes s.b ++ wordBytes s.c ++ wordBytes s.d ++
  wordBytes s.e ++ wordBytes s.f ++ wordBytes s.g ++ wordBytes s.h

/-- SHA-256 of a byte sequence. -/
def sha256 (msg : List Nat) : List Nat :=
  hashBytes (processWords H0 (bytesToWords (padMessage msg)))

/-! ## Lowercase hexadecimal rendering (encoding/hex.EncodeToString) -/

/-- One lowercase hexadecimal digit. -/
def hexDigit (n : Nat) : Char :=
  if n < 10 then Char.ofNat (48 + n) else Char.ofNat (87 + n)

/-- The two hex digits of one byte. -/
def byteHex (b : Nat) : List Char :=
  [hexDigit (b / 16), hexDigit (b % 16)]

/-- `hex.EncodeToString`: lowercase hexadecimal of a byte sequence. -/
def hexEncode (bs : List Nat) : String :=
  ⟨bs.flatMap byteHex⟩

/-! ## The request record (src/unnamed/part_000, struct PuzzleRequest)

Go's `Topics []string` is a nullable slice: `none` models the nil slice
(produced by a JSON body whose `topics` key is absent or null), `some l`
a non-nil slice of the listed elements. -/

structure PuzzleRequest where
  gameType : String
  difficulty : String
  topics : Option (List String)
  language : String
deriving DecidableEq, Repr

/-! ## encoding/json.Marshal of a PuzzleRequest

Struct fields are emitted in declaration order under their json tags.
`json.Marshal` escapes the quote, backslash and control characters and
(HTML escaping being on by default) also angle brackets, the ampersand
and U+2028/U+2029; a nil string slice is rendered `null`. -/

/-- How `encoding/json` renders one character inside a quoted string. -/
def goEscapeChar (c : Char) : String :=
  if c = '"' then "\\\""
  else if c = '\\' then "\\\\"
  else if c = '\n' then "\\n"
  else if c = '\r' then "\\r"
  else if c = '\t' then "\\t"
  else if c.toNat < 32 then
    "\\u00" ++ String.mk [hexDigit (c.toNat / 16), hexDigit (c.toNat % 16)]
  else if c = '<' then "\\u003c"
  else if c = '>' then "\\u003e"
  else if c = '&' then "\\u0026"
  else if c.toNat = 8232 then "\\u2028"
  else if c.toNat = 8233 then "\\u2029"
  else String.singleton c

/-- A Go JSON string literal: quoted, characters escaped. -/
def goQuote (s : String) : String :=
  "\"" ++ String.join (s.toList.map goEscapeChar) ++ "\""

/-- A non-nil `[]string` as a JSON array. -/
def goMarshalStringList : List String → String
  | [] => "[]"
  | t :: ts => "[" ++ goQuote t ++ String.join (ts.map (fun x => "," ++ goQuote x)) ++ "]"

/-- A `[]string` field value: the nil slice renders as `null`. -/
def goMarshalTopics : Option (List String) → String
  | none => "null"
  | some l => goMarshalStringList l

/-- `json.Marshal(req)` for the `PuzzleRequest` struct: one object with the
four tagged fields in declaration order. -/
def marshalPuzzleRequest (req : PuzzleRequest) : String :=
  "\x7b\"gameType\":" ++ goQuote req.gameType
    ++ ",\"difficulty\":" ++ goQuote req.difficulty
    ++ ",\"topics\":" ++ goMarshalTopics req.topics
    ++ ",\"language\":" ++ goQuote req.language ++ "\x7d"

/-! ## The fingerprint (src/main.go lines 87-99)

The handler re-serializes the decoded struct (`reqBytes`), hashes those
bytes with SHA-256 and renders the digest as a lowercase hex string. -/

/-- The serialized request bytes the handler hashes and persists (`reqBytes`). -/
def reqBytes (req : PuzzleRequest) : List Nat :=
  strBytes (marshalPuzzleRequest req)

/-- The cache key (`requestHash`): lowercase hex of SHA-256 of `reqBytes`. -/
def requestHash (req : PuzzleRequest) : String :=
  hexEncode (sha256 (reqBytes req))

/-! ## The Gemini generation client (src/gemini_service.go)

`fmt.Sprintf` restricted to the `%s` verb, which is all the source uses:
the format string is scanned left to right and each `%s` consumes the next
argument. -/

/-- Substitute arguments for the format's `%s` verbs, character by character. -/
def sprintfChars : List Char → List String → String
  | [], _ => ""
  | '%' :: 's' :: rest, a :: args => a ++ sprintfChars rest args
  | '%' :: 's' :: rest, [] => "%!s(MISSING)" ++ sprintfChars rest []
  | c :: rest, args => String.singleton c ++ sprintfChars rest args

/-- `fmt.Sprintf` with `%s` verbs only. -/
def goSprintf (format : String) (args : List String) : String :=
  sprintfChars format.toList args

/-- The game-type phrase: the two-way branch on `req.GameType` (lines 37-42);
every value other than "crossword" falls into the word-search arm. -/
def gameTypeString (req : PuzzleRequest) : String :=
  if req.gameType = "crossword" then "crossword puzzle" else "word search puzzle"

/-- `strings.ToLower(req.Difficulty)` (line 45). -/
def difficultyString (req : PuzzleRequest) : String :=
  req.difficulty.toLower

/-- The topics clause (lines 48-53): "about " and the ", "-joined topics when
the slice is non-empty, the fixed default phrase otherwise. -/
def topicsString (req : PuzzleRequest) : String :=
  if 0 < (req.topics.getD []).length then
    goSprintf "about %s" [String.intercalate ", " (req.topics.getD [])]
  else
    "general knowledge"

/-- The crossword prompt template: the raw string of lines 60-70, verbatim. -/
def crosswordTemplate : String :=
  "\n\t\t\tGenerate a %s %s in %s.\n\t\t\t%s\n\t\t\tProvide a grid of 8x8 to 10x10.\n\t\t\tReturn the data as a JSON object with 'gameType' (crossword), 'difficulty', 'topics', and 'crosswordData'.\n\t\t\t'crosswordData' should contain 'gridSize' (rows, cols) and an array of 'words'.\n\t\t\tEach 'word' object should have 'word', 'clue', 'startRow', 'startCol' (0-indexed), and 'direction' ('across' or 'down').\n\t\t\tEnsure words fit the grid and intersect correctly without gaps. All cells in a word must be valid letters.\n\t\t\tPrioritize well-formed and solvable puzzles.\n\t\t"

/-- The crossword response schema: the raw string of lines 72-121, verbatim. -/
def crosswordSchemaRaw : String :=
  "\x7b\n\t\t\t\"type\": \"OBJECT\",\n\t\t\t\"properties\": \x7b\n\t\t\t\t\"gameType\": \x7b\n\t\t\t\t\t\"type\": \"STRING\",\n\t\t\t\t\t\"enum\": [\"crossword\"]\n\t\t\t\t\x7d,\n\t\t\t\t\"difficulty\": \x7b\n\t\t\t\t\t\"type\": \"STRING\",\n\t\t\t\t\t\"enum\": [\"easy\", \"medium\", \"hard\"]\n\t\t\t\t\x7d,\n\t\t\t\t\"topics\": \x7b\n\t\t\t\t\t\"type\": \"ARRAY\",\n\t\t\t\t\t\"items\": \x7b\"type\": \"STRING\"\x7d\n\t\t\t\t\x7d,\n\t\t\t\t\"crosswordData\": \x7b\n\t\t\t\t\t\"type\": \"OBJECT\",\n\t\t\t\t\t\"properties\": \x7b\n\t\t\t\t\t\t\"gridSize\": \x7b\n\t\t\t\t\t\t\t\"type\": \"OBJECT\",\n\t\t\t\t\t\t\t\"properties\": \x7b\n\t\t\t\t\t\t\t\t\"rows\": \x7b\"type\": \"INTEGER\"\x7d,\n\t\t\t\t\t\t\t\t\"cols\": \x7b\"type\": \"INTEGER\"\x7d\n\t\t\t\t\t\t\t\x7d,\n\t\t\t\t\t\t\t\"required\": [\"rows\", \"cols\"]\n\t\t\t\t\t\t\x7d,\n\t\t\t\t\t\t\"words\": \x7b\n\t\t\t\t\t\t\t\"type\": \"ARRAY\",\n\t\t\t\t\t\t\t\"items\": \x7b\n\t\t\t\t\t\t\t\t\"type\": \"OBJECT\",\n\t\t\t\t\t\t\t\t\"properties\": \x7b\n\t\t\t\t\t\t\t\t\t\"word\": \x7b\"type\": \"STRING\"\x7d,\n\t\t\t\t\t\t\t\t\t\"clue\": \x7b\"type\": \"STRING\"\x7d,\n\t\t\t\t\t\t\t\t\t\"startRow\": \x7b\"type\": \"INTEGER\"\x7d,\n\t\t\t\t\t\t\t\t\t\"startCol\": \x7b\"type\": \"INTEGER\"\x7d,\n\t\t\t\t\t\t\t\t\t\"direction\": \x7b\n\t\t\t\t\t\t\t\t\t\t\"type\": \"STRING\",\n\t\t\t\t\t\t\t\t\t\t\"enum\": [\"across\", \"down\"]\n\t\t\t\t\t\t\t\t\t\x7d\n\t\t\t\t\t\t\t\t\x7d,\n\t\t\t\t\t\t\t\t\"required\": [\"word\", \"clue\", \"startRow\", \"startCol\", \"direction\"]\n\t\t\t\t\t\t\t\x7d\n\t\t\t\t\t\t\x7d\n\t\t\t\t\t\x7d,\n\t\t\t\t\t\"required\": [\"gridSize\", \"words\"]\n\t\t\t\t\x7d\n\t\t\t\x7d,\n\t\t\t\"required\": [\"gameType\", \"difficulty\", \"topics\"]\n\t\t\x7d"

/-- The word-search prompt template: the raw string of lines 122-133, verbatim. -/
def wordSearchTemplate : String :=
  "\n\t\t\tGenerate a %s %s in %s.\n\t\t\t%s\n\t\t\tProvide a grid size based on difficulty: Easy (10x10), Medium (12x12), Hard (15x15).\n\t\t\tReturn the data as a JSON object with 'gameType' (wordsearch), 'difficulty', 'topics', and 'wordSearchData'.\n\t\t\t'wordSearchData' should contain 'gridSize' (rows, cols) and a list of 'wordsToFind'.\n\t\t\t**Crucially, do NOT generate the full grid of letters. ONLY provide gridSize and wordsToFind.**\n\t\t\tThe 'wordsToFind' list should contain 10-15 unique words (depending on difficulty) that are relevant to the topics and suitable for a word search puzzle (e.g., no spaces, only letters, common vocabulary).\n\t\t\tEnsure these words are always in the uppercase.\n\t\t\tPrioritize well-formed words and a good mix for the chosen difficulty.\n\t\t"

/-- The word-search response schema: the raw string of lines 135-183, verbatim. -/
def wordSearchSchemaRaw : String :=
  "\x7b\n\t\t\t\"type\": \"OBJECT\",\n\t\t\t\"properties\": \x7b\n\t\t\t\t\"gameType\": \x7b\n\t\t\t\t\t\"type\": \"STRING\",\n\t\t\t\t\t\"enum\": [\"wordsearch\"]\n\t\t\t\t\x7d,\n\t\t\t\t\"difficulty\": \x7b\n\t\t\t\t\t\"type\": \"STRING\",\n\t\t\t\t\t\"enum\": [\"easy\", \"medium\", \"hard\"]\n\t\t\t\t\x7d,\n\t\t\t\t\"topics\": \x7b\n\t\t\t\t\t\"type\": \"ARRAY\",\n\t\t\t\t\t\"items\": \x7b\"type\": \"STRING\"\x7d\n\t\t\t\t\x7d,\n\t\t\t\t\"wordSearchData\": \x7b\n\t\t\t\t\t\"type\": \"OBJECT\",\n\t\t\t\t\t\"properties\": \x7b\n\t\t\t\t\t\t\"gridSize\": \x7b\n\t\t\t\t\t\t\t\"type\": \"OBJECT\",\n\t\t\t\t\t\t\t\"properties\": \x7b\n\t\t\t\t\t\t\t\t\"rows\": \x7b\"type\": \"INTEGER\"\x7d,\n\t\t\t\t\t\t\t\t\"cols\": \x7b\"type\": \"INTEGER\"\x7d\n\t\t\t\t\t\t\t\x7d,\n\t\t\t\t\t\t\t\"required\": [\"rows\", \"cols\"]\n\t\t\t\t\t\t\x7d,\n\t\t\t\t\t\t\"wordsToFind\": \x7b\n\t\t\t\t\t\t\t\"type\": \"ARRAY\",\n\t\t\t\t\t\t\t\"items\": \x7b\"type\": \"STRING\"\x7d\n\t\t\t\t\t\t\x7d\n\t\t\t\t\t\x7d,\n\t\t\t\t\t\"required\": [\"gridSize\", \"wordsToFind\"]\n\t\t\t\t\x7d\n\t\t\t\x7d,\n\t\t\t\"required\": [\"gameType\", \"difficulty\", \"topics\"]\n\t\t\x7d"

/-- The prompt of the crossword branch. -/
def crosswordPrompt (req : PuzzleRequest) : String :=
  goSprintf crosswordTemplate
    [difficultyString req, gameTypeString req, req.language, topicsString req]

/-- The prompt of the word-search (default) branch. -/
def wordSearchPrompt (req : PuzzleRequest) : String :=
  goSprintf wordSearchTemplate
    [difficultyString req, gameTypeString req, req.language, topicsString req]

/-- The prompt the branch on `req.GameType` selects (lines 59, 122). -/
def promptFor (req : PuzzleRequest) : String :=
  if req.gameType = "crossword" then crosswordPrompt req else wordSearchPrompt req

/-- The schema document the branch on `req.GameType` selects (lines 72, 135). -/
def schemaFor (req : PuzzleRequest) : String :=
  if req.gameType = "crossword" then crosswordSchemaRaw else wordSearchSchemaRaw

/-! ### The provider response envelope (src/unnamed/part_000) -/

structure GeminiContentPart where
  text : String
deriving DecidableEq, Repr

structure GeminiContent where
  parts : List GeminiContentPart
deriving DecidableEq, Repr

structure GeminiCandidate where
  content : GeminiContent
deriving DecidableEq, Repr

structure GeminiAPIResponse where
  candidates : List GeminiCandidate
deriving DecidableEq, Repr

/-- What the one outbound HTTP call and the subsequent `json.Unmarshal`
produced, injected as a parameter: a transport error, a non-200 status,
a 200 whose body does not parse, or the parsed envelope. -/
inductive ProviderOutcome where
  | netError (msg : String)
  | httpError (code : Nat) (body : String)
  | badJSON (body : String)
  | parsed (resp : GeminiAPIResponse)
deriving DecidableEq, Repr

/-- `GeneratePuzzle` (src/gemini_service.go lines 30-250): the credential
guard, then the branch-selected prompt and schema go into the one HTTP
call (abstracted into `outcome`); a parsed envelope must have a first
candidate with a first part, whose text is returned as the payload bytes.
(The schema map round-trip and the request marshalling of lines 185-208
cannot fail on the static literals and are not modelled.) -/
def GeneratePuzzle (apiKey : String) (req : PuzzleRequest) (outcome : ProviderOutcome) :
    Except String (List Nat) :=
  if apiKey = "" || apiKey = "YOUR_GEMINI_API_KEY_HERE" then
    .error "GEMINI_API_KEY não definida ou é o valor padrão. Por favor, defina-a como uma variável de ambiente"
  else
    match outcome with
    | .netError msg => .error ("falha ao fazer requisição HTTP para Gemini: " ++ msg)
    | .httpError code body => .error ("API Gemini falhou com status " ++ toString code ++ ": " ++ body)
    | .badJSON body => .error ("falha ao deserializar a resposta da API Gemini. Resposta bruta: " ++ body)
    | .parsed resp =>
      match resp.candidates with
      | [] => .error "A resposta da API Gemini estava vazia ou inesperada."
      | cand :: _ =>
        match cand.content.parts with
        | [] => .error "A resposta da API Gemini estava vazia ou inesperada."
        | part :: _ => .ok (strBytes part.text)

/-! ## The cache store (src/database.go)

The PostgreSQL row lookup behind `QueryRow(...).Scan` is injected as a
`QueryResult`; `SaveCachedPuzzle`'s `Exec` outcome as a Bool. -/

/-- What scanning the one row of the `SELECT response_data` query produced:
a row with its bytes, `sql.ErrNoRows`, or another store fault. -/
inductive QueryResult where
  | row (responseData : List Nat)
  | noRows
  | dbError
deriving DecidableEq, Repr

/-- `GetCachedPuzzle` (lines 45-60): `(nil, nil)` on `sql.ErrNoRows`,
`(nil, err)` on any other store fault, `(data, nil)` on a hit. The pair is
(the scanned bytes, whether an error was returned). -/
def GetCachedPuzzle (q : QueryResult) : Option (List Nat) × Bool :=
  match q with
  | .noRows => (none, false)
  | .dbError => (none, true)
  | .row responseData => (some responseData, false)

/-- `SaveCachedPuzzle` (lines 66-82): the upsert either fails (an error is
returned, nothing persisted) or persists exactly the row
`(request_hash, request_params, response_data)` it was given. -/
def SaveCachedPuzzle (execFails : Bool) (h : String) (requestParams responseData : List Nat) :
    Except String (String × List Nat × List Nat) :=
  if execFails then .error ("falha ao salvar quebra-cabeça em cache para o hash " ++ h)
  else .ok (h, requestParams, responseData)

/-! ## The HTTP handler (src/main.go, generatePuzzleHandler) -/

/-- What `json.NewDecoder(r.Body).Decode(&req)` produced. -/
inductive DecodeResult where
  | ok (req : PuzzleRequest)
  | err (msg : String)
deriving DecidableEq, Repr

/-- The injected external world of one request: the server's Gemini key,
the store's answer per queried hash, the provider call's outcome, and
whether the cache upsert fails. -/
structure Env where
  apiKey : String
  store : String → QueryResult
  provider : PuzzleRequest → ProviderOutcome
  saveFails : Bool

/-- Everything observable about one handled request: the HTTP status, the
response bytes written, whether the cache was queried, whether
`GeneratePuzzle` was invoked, and the row the upsert persisted (if any). -/
structure HandlerResult where
  status : Nat
  body : List Nat
  lookupDone : Bool
  genCalled : Bool
  savedRow : Option (String × List Nat × List Nat)
deriving DecidableEq, Repr

/-- `generatePuzzleHandler` (src/main.go lines 71-138): reject non-POST with
405; reject an undecodable body with 400; re-serialize the decoded struct,
hash it, look the hash up (a lookup error is only logged); on a non-nil
cached payload answer 200 with it; otherwise call `GeneratePuzzle`,
answering 500 on its error; save the result (a save error is only logged)
and answer 200 with the generated payload. -/
def generatePuzzleHandler (env : Env) (method : String) (decoded : DecodeResult) :
    HandlerResult :=
  if method ≠ "POST" then
    ⟨405, strBytes "Apenas requisições POST são permitidas para este endpoint.", false, false, none⟩
  else
    match decoded with
    | .err msg => ⟨400, strBytes ("Payload de requisição inválido: " ++ msg), false, false, none⟩
    | .ok req =>
      match (GetCachedPuzzle (env.store (requestHash req))).1 with
      | some cachedResponse => ⟨200, cachedResponse, true, false, none⟩
      | none =>
        match GeneratePuzzle env.apiKey req (env.provider req) with
        | .error e => ⟨500, strBytes ("Falha ao gerar quebra-cabeça: " ++ e), true, true, none⟩
        | .ok geminiResponse =>
          match SaveCachedPuzzle env.saveFails (requestHash req) (reqBytes req) geminiResponse with
          | .error _ => ⟨200, geminiResponse, true, true, none⟩
          | .ok row => ⟨200, geminiResponse, true, true, some row⟩

/-- The handler on a raw body: the body reaches the rest of the handler
only through the `encoding/json` decoder. -/
def handleBody (env : Env) (decode : List Nat → DecodeResult) (body : List Nat) :
    HandlerResult :=
  generatePuzzleHandler env "POST" (decode body)

/-! ## Claim theorems: the handler control flow -/

/-- Claim C1: for every request whose fingerprint already has a cache entry,
the handler returns the stored payload byte-for-byte with status 200 and
the generation client is never invoked (and nothing is saved). -/
theorem C1_cache_hit_returns_stored_payload (env : Env) (req : PuzzleRequest)
    (data : List Nat) (hhit : env.store (requestHash req) = .row data) :
    generatePuzzleHandler env "POST" (.ok req) = ⟨200, data, true, false, none⟩ := by
  simp [generatePuzzleHandler, GetCachedPuzzle, hhit]

def envC1 : Env := ⟨"key", fun _ => .row [9, 8, 7], fun _ => .netError "down", false⟩

/-- Witness for C1: a concrete environment whose store holds [9, 8, 7] under
the request's fingerprint. -/
theorem C1_cache_hit_returns_stored_payload_witness :
    generatePuzzleHandler envC1 "POST" (.ok ⟨"crossword", "easy", some ["animals"], "pt"⟩) =
      ⟨200, [9, 8, 7], true, false, none⟩ :=
  C1_cache_hit_returns_stored_payload envC1 ⟨"crossword", "easy", some ["animals"], "pt"⟩
    [9, 8, 7] rfl

/-- Claim C8: a non-POST method gets status 405 and nothing else happens:
no cache lookup, no generation call, no cache write. -/
theorem C8_non_post_is_405_no_side_effects (env : Env) (method : String)
    (decoded : DecodeResult) (hm : method ≠ "POST") :
    generatePuzzleHandler env method decoded =
      ⟨405, strBytes "Apenas requisições POST são permitidas para este endpoint.",
       false, false, none⟩ := by
  simp [generatePuzzleHandler, hm]

/-- Witness for C8: a GET request against a store that would hit. -/
theorem C8_non_post_is_405_no_side_effects_witness :
    generatePuzzleHandler envC1 "GET" (.ok ⟨"crossword", "easy", some ["animals"], "pt"⟩) =
      ⟨405, strBytes "Apenas requisições POST são permitidas para este endpoint.",
       false, false, none⟩ :=
  C8_non_post_is_405_no_side_effects envC1 "GET" (.ok ⟨"crossword", "easy", some ["animals"], "pt"⟩)
    (by decide)

/-- Claim C3: a store fault on lookup does not abort the request: the
handler behaves exactly as on a cache miss, the generation client is
invoked, and when generation succeeds (valid key, provider envelope with a
first candidate and first part) the response is the generated text, 200. -/
theorem C3_lookup_fault_treated_as_miss (env : Env) (req : PuzzleRequest)
    (text : String) (parts : List GeminiContentPart) (cands : List GeminiCandidate)
    (hfault : env.store (requestHash req) = .dbError)
    (hkey1 : env.apiKey ≠ "") (hkey2 : env.apiKey ≠ "YOUR_GEMINI_API_KEY_HERE")
    (hprov : env.provider req = .parsed ⟨⟨⟨⟨text⟩ :: parts⟩⟩ :: cands⟩) :
    generatePuzzleHandler env "POST" (.ok req) =
      generatePuzzleHandler { env with store := fun _ => QueryResult.noRows } "POST" (.ok req) ∧
    (generatePuzzleHandler env "POST" (.ok req)).genCalled = true ∧
    (generatePuzzleHandler env "POST" (.ok req)).status = 200 ∧
    (generatePuzzleHandler env "POST" (.ok req)).body = strBytes text := by
  simp [generatePuzzleHandler, GetCachedPuzzle, hfault, hprov, GeneratePuzzle,
        hkey1, hkey2, SaveCachedPuzzle]
  cases h : env.saveFails <;> simp [h]

def envC3 : Env :=
  ⟨"key", fun _ => .dbError, fun _ => .parsed ⟨[⟨⟨[⟨"GEN"⟩]⟩⟩]⟩, false⟩

/-- Witness for C3: a concrete store that faults on every lookup and a
provider that answers with the text "GEN". -/
theorem C3_lookup_fault_treated_as_miss_witness :
    generatePuzzleHandler envC3 "POST" (.ok ⟨"wordsearch", "easy", some [], "en"⟩) =
      generatePuzzleHandler { envC3 with store := fun _ => QueryResult.noRows } "POST"
        (.ok ⟨"wordsearch", "easy", some [], "en"⟩) ∧
    (generatePuzzleHandler envC3 "POST" (.ok ⟨"wordsearch", "easy", some [], "en"⟩)).genCalled = true ∧
    (generatePuzzleHandler envC3 "POST" (.ok ⟨"wordsearch", "easy", some [], "en"⟩)).status = 200 ∧
    (generatePuzzleHandler envC3 "POST" (.ok ⟨"wordsearch", "easy", some [], "en"⟩)).body = strBytes "GEN" :=
  C3_lookup_fault_treated_as_miss envC3 ⟨"wordsearch", "easy", some [], "en"⟩ "GEN" [] []
    rfl (by decide) (by decide) rfl

/-- Claim C4: when generation succeeded, a failing cache write never fails
the user-facing request: status stays 200, the body is exactly the
generated payload, and it equals what a succeeding write would answer. -/
theorem C4_save_failure_keeps_response (env : Env) (req : PuzzleRequest)
    (payload : List Nat)
    (hmiss : env.store (requestHash req) = .noRows)
    (hgen : GeneratePuzzle env.apiKey req (env.provider req) = .ok payload)
    (hsave : env.saveFails = true) :
    (generatePuzzleHandler env "POST" (.ok req)).status = 200 ∧
    (generatePuzzleHandler env "POST" (.ok req)).body = payload ∧
    (generatePuzzleHandler env "POST" (.ok req)).body =
      (generatePuzzleHandler { env with saveFails := false } "POST" (.ok req)).body := by
  simp [generatePuzzleHandler, GetCachedPuzzle, hmiss, hgen, SaveCachedPuzzle, hsave]

def envC4 : Env :=
  ⟨"key", fun _ => .noRows, fun _ => .parsed ⟨[⟨⟨[⟨"GEN"⟩]⟩⟩]⟩, true⟩

/-- Witness for C4: a concrete environment whose upsert fails. -/
theorem C4_save_failure_keeps_response_witness :
    (generatePuzzleHandler envC4 "POST" (.ok ⟨"crossword", "hard", none, "en"⟩)).status = 200 ∧
    (generatePuzzleHandler envC4 "POST" (.ok ⟨"crossword", "hard", none, "en"⟩)).body = strBytes "GEN" ∧
    (generatePuzzleHandler envC4 "POST" (.ok ⟨"crossword", "hard", none, "en"⟩)).body =
      (generatePuzzleHandler { envC4 with saveFails := false } "POST"
        (.ok ⟨"crossword", "hard", none, "en"⟩)).body :=
  C4_save_failure_keeps_response envC4 ⟨"crossword", "hard", none, "en"⟩ (strBytes "GEN")
    rfl rfl rfl

/-! ## Claim theorems: the fingerprint -/

lemma hashBytes_length (s : Hash8) : (hashBytes s).length = 32 := by
  simp [hashBytes, wordBytes]

lemma mem_hashBytes_lt (s : Hash8) : ∀ b ∈ hashBytes s, b < 256 := by
  simp only [hashBytes, wordBytes, List.mem_append, List.mem_cons, List.not_mem_nil, or_false]
  intro b hb
  omega

lemma sha256_length (m : List Nat) : (sha256 m).length = 32 :=
  hashBytes_length _

lemma mem_sha256_lt (m : List Nat) : ∀ b ∈ sha256 m, b < 256 :=
  mem_hashBytes_lt _

lemma length_flatMap_byteHex (bs : List Nat) : (bs.flatMap byteHex).length = 2 * bs.length := by
  induction bs with
  | nil => simp
  | cons b bs ih => simp [byteHex] at ih ⊢; omega

lemma hexEncode_length (bs : List Nat) : (hexEncode bs).length = 2 * bs.length :=
  length_flatMap_byteHex bs

lemma hexDigit_mem_alphabet : ∀ n, n < 16 → hexDigit n ∈ ("0123456789abcdef").data := by
  decide

lemma mem_hexEncode_alphabet (bs : List Nat) (hb : ∀ b ∈ bs, b < 256) :
    ∀ c ∈ (hexEncode bs).data, c ∈ ("0123456789abcdef").data := by
  intro c hc
  simp only [hexEncode, List.mem_flatMap] at hc
  obtain ⟨b, hbmem, hcb⟩ := hc
  have hblt := hb b hbmem
  simp only [byteHex, List.mem_cons, List.not_mem_nil, or_false] at hcb
  rcases hcb with rfl | rfl
  · exact hexDigit_mem_alphabet _ (by omega)
  · exact hexDigit_mem_alphabet _ (by omega)

/-- Claim C2: the fingerprint is the lowercase hexadecimal rendering of the
256-bit SHA-256 digest of the canonical serialization of the request (64
hex characters, all from the lowercase alphabet), and it is a pure
function of the request: equal requests give identical fingerprints. -/
theorem C2_fingerprint_is_lowercase_hex_sha256 (req : PuzzleRequest) :
    requestHash req = hexEncode (sha256 (strBytes (marshalPuzzleRequest req))) ∧
    (requestHash req).length = 64 ∧
    (∀ c ∈ (requestHash req).data, c ∈ ("0123456789abcdef").data) ∧
    (∀ r1 r2 : PuzzleRequest, r1 = r2 → requestHash r1 = requestHash r2) := by
  refine ⟨rfl, ?_, ?_, ?_⟩
  · show (hexEncode (sha256 (reqBytes req))).length = 64
    rw [hexEncode_length, sha256_length]
  · exact mem_hexEncode_alphabet _ (mem_sha256_lt _)
  · intro r1 r2 h
    rw [h]

/-- Witness for C2, at the spec's own example request. -/
theorem C2_fingerprint_is_lowercase_hex_sha256_witness :
    requestHash ⟨"crossword", "easy", some ["animals", "nature"], "pt"⟩ =
      hexEncode (sha256 (strBytes
        (marshalPuzzleRequest ⟨"crossword", "easy", some ["animals", "nature"], "pt"⟩))) ∧
    (requestHash ⟨"crossword", "easy", some ["animals", "nature"], "pt"⟩).length = 64 :=
  ⟨(C2_fingerprint_is_lowercase_hex_sha256 ⟨"crossword", "easy", some ["animals", "nature"], "pt"⟩).1,
   (C2_fingerprint_is_lowercase_hex_sha256 ⟨"crossword", "easy", some ["animals", "nature"], "pt"⟩).2.1⟩

/-! ## Claim theorems: the concrete scenario and the re-serialization -/

/-- The spec scenario's request. -/
def scenarioReq : PuzzleRequest := ⟨"crossword", "easy", some ["animals", "nature"], "pt"⟩

/-- The scenario's canonical input JSON, byte for byte. -/
def scenarioJSON : String :=
  "\x7b\"gameType\":\"crossword\",\"difficulty\":\"easy\",\"topics\":[\"animals\",\"nature\"],\"language\":\"pt\"\x7d"

/-- Claim C5: on the scenario request with an empty cache and a succeeding
provider, the crossword branch is selected, the generation client is
invoked, the new cache row is keyed by the SHA-256 fingerprint of the
exact scenario JSON (whose bytes are also persisted as request_params),
and the response equals the provider's extracted text. -/
theorem C5_crossword_scenario_empty_cache (env : Env) (text : String)
    (parts : List GeminiContentPart) (cands : List GeminiCandidate)
    (hempty : ∀ h, env.store h = .noRows)
    (hkey1 : env.apiKey ≠ "") (hkey2 : env.apiKey ≠ "YOUR_GEMINI_API_KEY_HERE")
    (hprov : env.provider scenarioReq = .parsed ⟨⟨⟨⟨text⟩ :: parts⟩⟩ :: cands⟩)
    (hsave : env.saveFails = false) :
    marshalPuzzleRequest scenarioReq = scenarioJSON ∧
    promptFor scenarioReq = crosswordPrompt scenarioReq ∧
    schemaFor scenarioReq = crosswordSchemaRaw ∧
    (generatePuzzleHandler env "POST" (.ok scenarioReq)).genCalled = true ∧
    (generatePuzzleHandler env "POST" (.ok scenarioReq)).savedRow =
      some (hexEncode (sha256 (strBytes scenarioJSON)), strBytes scenarioJSON, strBytes text) ∧
    (generatePuzzleHandler env "POST" (.ok scenarioReq)).body = strBytes text := by
  have hm : marshalPuzzleRequest scenarioReq = scenarioJSON := rfl
  refine ⟨hm, by simp [promptFor, scenarioReq], by simp [schemaFor, scenarioReq], ?_, ?_, ?_⟩ <;>
    simp [generatePuzzleHandler, GetCachedPuzzle, hempty, GeneratePuzzle, hkey1, hkey2,
          hprov, SaveCachedPuzzle, hsave, requestHash, reqBytes, hm]

def envC5 : Env := ⟨"key", fun _ => .noRows, fun _ => .parsed ⟨[⟨⟨[⟨"GEN"⟩]⟩⟩]⟩, false⟩

/-- Witness for C5: a concrete empty-cache environment. -/
theorem C5_crossword_scenario_empty_cache_witness :
    marshalPuzzleRequest scenarioReq = scenarioJSON ∧
    promptFor scenarioReq = crosswordPrompt scenarioReq ∧
    schemaFor scenarioReq = crosswordSchemaRaw ∧
    (generatePuzzleHandler envC5 "POST" (.ok scenarioReq)).genCalled = true ∧
    (generatePuzzleHandler envC5 "POST" (.ok scenarioReq)).savedRow =
      some (hexEncode (sha256 (strBytes scenarioJSON)), strBytes scenarioJSON, strBytes "GEN") ∧
    (generatePuzzleHandler envC5 "POST" (.ok scenarioReq)).body = strBytes "GEN" :=
  C5_crossword_scenario_empty_cache envC5 "GEN" [] []
    (fun _ => rfl) (by decide) (by decide) rfl rfl

/-! ## Claim theorems: the generation client branch -/

/-- Claim C6: a gameType other than "crossword" (the empty string included)
falls into the word-search branch: the word-search phrase, prompt and
schema are selected, and with a valid key and a well-formed provider
envelope `GeneratePuzzle` still returns a payload rather than an error. -/
theorem C6_unknown_gameType_defaults_to_wordsearch (req : PuzzleRequest) (apiKey : String)
    (text : String) (parts : List GeminiContentPart) (cands : List GeminiCandidate)
    (hgt : req.gameType ≠ "crossword")
    (hkey1 : apiKey ≠ "") (hkey2 : apiKey ≠ "YOUR_GEMINI_API_KEY_HERE") :
    gameTypeString req = "word search puzzle" ∧
    promptFor req = wordSearchPrompt req ∧
    schemaFor req = wordSearchSchemaRaw ∧
    GeneratePuzzle apiKey req (.parsed ⟨⟨⟨⟨text⟩ :: parts⟩⟩ :: cands⟩) = .ok (strBytes text) := by
  simp [gameTypeString, promptFor, schemaFor, hgt, GeneratePuzzle, hkey1, hkey2]

/-- Witness for C6: the empty-string gameType. -/
theorem C6_unknown_gameType_defaults_to_wordsearch_witness :
    gameTypeString ⟨"", "easy", none, "en"⟩ = "word search puzzle" ∧
    promptFor ⟨"", "easy", none, "en"⟩ = wordSearchPrompt ⟨"", "easy", none, "en"⟩ ∧
    schemaFor ⟨"", "easy", none, "en"⟩ = wordSearchSchemaRaw ∧
    GeneratePuzzle "key" ⟨"", "easy", none, "en"⟩ (.parsed ⟨[⟨⟨[⟨"GEN"⟩]⟩⟩]⟩) =
      .ok (strBytes "GEN") :=
  C6_unknown_gameType_defaults_to_wordsearch ⟨"", "easy", none, "en"⟩ "key" "GEN" [] []
    (by decide) (by decide) (by decide)

/-! ## Claim theorems: the raw body only matters through the decoder -/

/-- Claim C9: two POST bodies that decode to the same PuzzleRequest are
handled identically — the handler's behavior (the fingerprint included) is
a function of the decoded struct, not of the raw body bytes, because the
hash is taken over the canonical re-serialization. -/
theorem C9_equal_decoded_requests_same_handling (env : Env)
    (decode : List Nat → DecodeResult) (b1 b2 : List Nat) (req : PuzzleRequest)
    (h1 : decode b1 = .ok req) (h2 : decode b2 = .ok req) :
    handleBody env decode b1 = generatePuzzleHandler env "POST" (.ok req) ∧
    handleBody env decode b1 = handleBody env decode b2 := by
  simp [handleBody, h1, h2]

def decodeC9 : List Nat → DecodeResult :=
  fun b => if b = [1] ∨ b = [2] then .ok ⟨"crossword", "easy", some ["animals"], "pt"⟩
           else .err "payload inválido"

/-- Witness for C9: two different raw bodies, one decoded value. -/
theorem C9_equal_decoded_requests_same_handling_witness :
    handleBody envC5 decodeC9 [1] =
      generatePuzzleHandler envC5 "POST" (.ok ⟨"crossword", "easy", some ["animals"], "pt"⟩) ∧
    handleBody envC5 decodeC9 [1] = handleBody envC5 decodeC9 [2] :=
  C9_equal_decoded_requests_same_handling envC5 decodeC9 [1] [2]
    ⟨"crossword", "easy", some ["animals"], "pt"⟩ (by decide) (by decide)

/-! ## Claim theorems: the persisted row's invariant -/

/-- Claim C10: every cache row the handler writes satisfies
request_hash = lowercase-hex-SHA256(request_params), and the persisted
request_params are exactly the serialized bytes of the decoded request
that were fingerprinted. -/
theorem C10_saved_row_hash_matches_params (env : Env) (method : String)
    (decoded : DecodeResult) (hsh : String) (p d : List Nat)
    (hrow : (generatePuzzleHandler env method decoded).savedRow = some (hsh, p, d)) :
    hsh = hexEncode (sha256 p) ∧
    ∃ req, decoded = .ok req ∧ p = reqBytes req ∧ hsh = requestHash req := by
  by_cases hm : method = "POST"
  · subst hm
    cases decoded with
    | err m => simp [generatePuzzleHandler] at hrow
    | ok req =>
      cases hq : (GetCachedPuzzle (env.store (requestHash req))).1 with
      | some c => simp [generatePuzzleHandler, hq] at hrow
      | none =>
        cases hg : GeneratePuzzle env.apiKey req (env.provider req) with
        | error e => simp [generatePuzzleHandler, hq, hg] at hrow
        | ok g =>
          cases hs : env.saveFails with
          | true => simp [generatePuzzleHandler, hq, hg, SaveCachedPuzzle, hs] at hrow
          | false =>
            simp [generatePuzzleHandler, hq, hg, SaveCachedPuzzle, hs] at hrow
            obtain ⟨h1, h2, h3⟩ := hrow
            subst h1
            subst h2
            exact ⟨rfl, req, rfl, rfl, rfl⟩
  · simp [generatePuzzleHandler, hm] at hrow

/-- Witness for C10: the row written in the concrete C5 environment. -/
theorem C10_saved_row_hash_matches_params_witness :
    requestHash scenarioReq = hexEncode (sha256 (reqBytes scenarioReq)) ∧
    ∃ req, DecodeResult.ok scenarioReq = .ok req ∧ reqBytes scenarioReq = reqBytes req ∧
      requestHash scenarioReq = requestHash req :=
  C10_saved_row_hash_matches_params envC5 "POST" (.ok scenarioReq)
    (requestHash scenarioReq) (reqBytes scenarioReq) (strBytes "GEN") rfl

/-! ## Claim theorems: the prompt interpolation (C7)

`goSprintf` on a format whose literal stretches contain no percent sign is
plain concatenation; the two templates are decomposed around their four
`%s` verbs to exhibit exactly what is interpolated where. -/

lemma sprintfChars_percent_s (rest : List Char) (a : String) (args : List String) :
    sprintfChars ('%' :: 's' :: rest) (a :: args) = a ++ sprintfChars rest args := rfl

lemma sprintfChars_cons (c : Char) (t : List Char) (args : List String) (hc : c ≠ '%') :
    sprintfChars (c :: t) args = String.singleton c ++ sprintfChars t args := by
  rw [sprintfChars.eq_def]
  split <;> simp_all

lemma empty_append_str (s : String) : "" ++ s = s := by
  apply String.ext
  simp [String.data_append]

lemma sprintfChars_append_no_percent (s t : List Char) (args : List String)
    (h : '%' ∉ s) :
    sprintfChars (s ++ t) args = String.mk s ++ sprintfChars t args := by
  induction s with
  | nil =>
    rw [List.nil_append]
    exact (empty_append_str _).symm
  | cons c s ih =>
    have hc : c ≠ '%' := fun e => h (e ▸ List.mem_cons_self c s)
    rw [List.cons_append, sprintfChars_cons c _ _ hc,
        ih (fun hm => h (List.mem_cons_of_mem c hm))]
    apply String.ext
    simp [String.data_append, String.singleton]

lemma sprintfChars_no_percent (s : List Char) (args : List String) (h : '%' ∉ s) :
    sprintfChars s args = String.mk s := by
  have h2 := sprintfChars_append_no_percent s [] args h
  rw [List.append_nil] at h2
  rw [h2, sprintfChars]
  apply String.ext
  simp [String.data_append]

/-- Counterexample for C7 as frozen: the interpolated topics clause for the
topics ["animals", "nature"] is "about animals, nature", which is not the
comma-joined topics "animals, nature". -/
theorem C7_topics_clause_counterexample :
    topicsString ⟨"wordsearch", "easy", some ["animals", "nature"], "pt"⟩ =
      "about animals, nature" ∧
    topicsString ⟨"wordsearch", "easy", some ["animals", "nature"], "pt"⟩ ≠
      String.intercalate ", " ["animals", "nature"] := by
  constructor
  · rfl
  · decide

set_option maxRecDepth 40000 in
/-- Claim C7 as amended: the topics clause is "about " followed by the
", "-joined topics when the list is non-empty, the fixed phrase
"general knowledge" when it is empty or absent; both prompt templates
interpolate, in order, the lowercased difficulty, the game-type phrase,
the language and that topics clause around their fixed literal text. -/
theorem C7_topics_clause_interpolated (req : PuzzleRequest) :
    (0 < (req.topics.getD []).length →
      topicsString req = "about " ++ String.intercalate ", " (req.topics.getD [])) ∧
    ((req.topics.getD []).length = 0 → topicsString req = "general knowledge") ∧
    difficultyString req = req.difficulty.toLower ∧
    crosswordPrompt req =
      "\n\t\t\tGenerate a " ++ difficultyString req ++ " " ++ gameTypeString req ++ " in "
        ++ req.language ++ ".\n\t\t\t" ++ topicsString req ++ "\n\t\t\tProvide a grid of 8x8 to 10x10.\n\t\t\tReturn the data as a JSON object with 'gameType' (crossword), 'difficulty', 'topics', and 'crosswordData'.\n\t\t\t'crosswordData' should contain 'gridSize' (rows, cols) and an array of 'words'.\n\t\t\tEach 'word' object should have 'word', 'clue', 'startRow', 'startCol' (0-indexed), and 'direction' ('across' or 'down').\n\t\t\tEnsure words fit the grid and intersect correctly without gaps. All cells in a word must be valid letters.\n\t\t\tPrioritize well-formed and solvable puzzles.\n\t\t" ∧
    wordSearchPrompt req =
      "\n\t\t\tGenerate a " ++ difficultyString req ++ " " ++ gameTypeString req ++ " in "
        ++ req.language ++ ".\n\t\t\t" ++ topicsString req ++ "\n\t\t\tProvide a grid size based on difficulty: Easy (10x10), Medium (12x12), Hard (15x15).\n\t\t\tReturn the data as a JSON object with 'gameType' (wordsearch), 'difficulty', 'topics', and 'wordSearchData'.\n\t\t\t'wordSearchData' should contain 'gridSize' (rows, cols) and a list of 'wordsToFind'.\n\t\t\t**Crucially, do NOT generate the full grid of letters. ONLY provide gridSize and wordsToFind.**\n\t\t\tThe 'wordsToFind' list should contain 10-15 unique words (depending on difficulty) that are relevant to the topics and suitable for a word search puzzle (e.g., no spaces, only letters, common vocabulary).\n\t\t\tEnsure these words are always in the uppercase.\n\t\t\tPrioritize well-formed words and a good mix for the chosen difficulty.\n\t\t" := by
  refine ⟨?_, ?_, rfl, ?_, ?_⟩
  · intro hlen
    rw [topicsString, if_pos hlen, goSprintf]
    have hsplit : ("about %s").toList = ("about ").data ++ '%' :: 's' :: [] := rfl
    rw [hsplit, sprintfChars_append_no_percent _ _ _ (by decide), sprintfChars_percent_s,
        sprintfChars]
    apply String.ext
    simp [String.data_append]
  · intro hlen
    rw [topicsString, if_neg (by omega)]
  · rw [crosswordPrompt, goSprintf]
    have hsplit : crosswordTemplate.toList =
        ("\n\t\t\tGenerate a ").data ++ '%' :: 's' ::
          ((" ").data ++ '%' :: 's' ::
            ((" in ").data ++ '%' :: 's' ::
              ((".\n\t\t\t").data ++ '%' :: 's' :: ("\n\t\t\tProvide a grid of 8x8 to 10x10.\n\t\t\tReturn the data as a JSON object with 'gameType' (crossword), 'difficulty', 'topics', and 'crosswordData'.\n\t\t\t'crosswordData' should contain 'gridSize' (rows, cols) and an array of 'words'.\n\t\t\tEach 'word' object should have 'word', 'clue', 'startRow', 'startCol' (0-indexed), and 'direction' ('across' or 'down').\n\t\t\tEnsure words fit the grid and intersect correctly without gaps. All cells in a word must be valid letters.\n\t\t\tPrioritize well-formed and solvable puzzles.\n\t\t").data))) := rfl
    rw [hsplit, sprintfChars_append_no_percent _ _ _ (by decide), sprintfChars_percent_s,
        sprintfChars_append_no_percent _ _ _ (by decide), sprintfChars_percent_s,
        sprintfChars_append_no_percent _ _ _ (by decide), sprintfChars_percent_s,
        sprintfChars_append_no_percent _ _ _ (by decide), sprintfChars_percent_s,
        sprintfChars_no_percent _ _ (by decide)]
    apply String.ext
    simp [String.data_append]
  · rw [wordSearchPrompt, goSprintf]
    have hsplit : wordSearchTemplate.toList =
        ("\n\t\t\tGenerate a ").data ++ '%' :: 's' ::
          ((" ").data ++ '%' :: 's' ::
            ((" in ").data ++ '%' :: 's' ::
              ((".\n\t\t\t").data ++ '%' :: 's' :: ("\n\t\t\tProvide a grid size based on difficulty: Easy (10x10), Medium (12x12), Hard (15x15).\n\t\t\tReturn the data as a JSON object with 'gameType' (wordsearch), 'difficulty', 'topics', and 'wordSearchData'.\n\t\t\t'wordSearchData' should contain 'gridSize' (rows, cols) and a list of 'wordsToFind'.\n\t\t\t**Crucially, do NOT generate the full grid of letters. ONLY provide gridSize and wordsToFind.**\n\t\t\tThe 'wordsToFind' list should contain 10-15 unique words (depending on difficulty) that are relevant to the topics and suitable for a word search puzzle (e.g., no spaces, only letters, common vocabulary).\n\t\t\tEnsure these words are always in the uppercase.\n\t\t\tPrioritize well-formed words and a good mix for the chosen difficulty.\n\t\t").data))) := rfl
    rw [hsplit, sprintfChars_append_no_percent _ _ _ (by decide), sprintfChars_percent_s,
        sprintfChars_append_no_percent _ _ _ (by decide), sprintfChars_percent_s,
        sprintfChars_append_no_percent _ _ _ (by decide), sprintfChars_percent_s,
        sprintfChars_append_no_percent _ _ _ (by decide), sprintfChars_percent_s,
        sprintfChars_no_percent _ _ (by decide)]
    apply String.ext
    simp [String.data_append]

/-- Witness for the amended C7, at the spec scenario's request. -/
theorem C7_topics_clause_interpolated_witness :
    topicsString scenarioReq = "about " ++ String.intercalate ", " ["animals", "nature"] ∧
    difficultyString scenarioReq = scenarioReq.difficulty.toLower :=
  ⟨(C7_topics_clause_interpolated scenarioReq).1 (by decide),
   (C7_topics_clause_interpolated scenarioReq).2.2.1⟩

end PuzzleProxy
